import Mathlib

/-!
# Verification of `native_lib_loader` library loading

Shallow embedding of the library-loading logic of the `native_lib_loader`
repository, and proofs about it.  The repository contains two closely related
implementations:

* `src/native_lib_loader/library/loader.py` (embedded here under the `nll`
  namespace): `PlatformLibrary` is a `NamedTuple` with fields
  `Linux`, `Darwin`, `Windows` defaulting to `None`; the `LibraryLoader`
  constructor converts ordered tuples to `PlatformLibrary`.
* `src/pkgs/shared_lib_manager/shared_lib_manager.py` (embedded under the
  `slm` namespace): `PlatformLibrary` is a plain class that validates path
  types and absoluteness and carries an optional `default` producer; the
  `LibraryLoader` constructor rejects anything that is not a
  `PlatformLibrary` instance.

The `load` methods of the two `LibraryLoader` classes are textually
identical; they are embedded once (`loaderLoad` below).  Dynamic loading
(`ctypes.CDLL`) is modelled by an oracle `DynOracle` mapping the string
passed to `CDLL` to `none` (success) or `some msg` (an `OSError` carrying
`msg`).  The process environment is an `EnvMap`.
-/

/-- Python exceptions that the embedded code can raise or observe. -/
inductive PyExc where
  | moduleNotFoundError
  | importError
  | attributeError
  | osError (msg : String)
  | valueError (msg : String)
  | typeError (msg : String)
  deriving DecidableEq, Repr

/-- A `pathlib.Path` value: an absolute flag plus the list of components.
Only the operations the embedded code uses are modelled: `.name` (the last
component), `.parent` (drop the last component), `.is_absolute()` (the flag),
and `str()` (POSIX-style rendering, which is what reaches `ctypes.CDLL` and
the environment variable). -/
structure PyPath where
  absolute : Bool
  comps : List String
  deriving DecidableEq, Repr

/-- `str(path)` for a `PyPath` (POSIX-style rendering). -/
def PyPath.render (p : PyPath) : String :=
  (if p.absolute then "/" else "") ++ String.intercalate "/" p.comps

/-- `path.name`: the final path component (empty for a bare root). -/
def PyPath.name (p : PyPath) : String :=
  (p.comps.getLast?).getD ""

/-- `path.parent`: the path with the final component removed. -/
def PyPath.parent (p : PyPath) : PyPath :=
  ⟨p.absolute, p.comps.dropLast⟩

/-- A registry entry as stored in `self._libraries`: in both Python
implementations `getattr(path, platform_name)` can yield `None` (a
`PlatformLibrary` field that was never supplied), so entries are optional
paths. -/
abbrev RegEntry := Option PyPath

/-- `str(x)` applied to a registry entry; `str(None) = "None"` in Python. -/
def strOfEntry : RegEntry → String
  | none => "None"
  | some p => p.render

/-- `entry.name` on a registry entry: attribute access on `None` raises
`AttributeError`, otherwise it is `Path.name`. -/
def entryName : RegEntry → Except PyExc String
  | none => .error .attributeError
  | some p => .ok p.name

/-- The registry `self._libraries`: a Python `dict` built by insertion, so an
insertion-ordered association list with (by `dict` semantics) distinct keys. -/
abbrev Registry := List (String × RegEntry)

/-- Lookup in the registry, as `self._libraries[library_name]`. -/
def lookupReg : Registry → String → Option RegEntry
  | [], _ => none
  | (k, v) :: rest, n => if k = n then some v else lookupReg rest n

/-- The process environment `os.environ` (read via `os.getenv`). -/
abbrev EnvMap := String → Option String

/-- The dynamic-loading oracle: the outcome of `ctypes.CDLL(s, ...)` for the
string `s`.  `none` means the load succeeds; `some msg` means the OS loader
raises `OSError(msg)`. -/
abbrev DynOracle := String → Option String

/-- Symbol visibility of a load call: which `_load` function is installed
(`ctypes.RTLD_LOCAL` for `LibraryLoader._load`, `ctypes.RTLD_GLOBAL` for
`TestingLibraryLoader._load_global`). -/
inductive Vis where
  | rtldLocal
  | rtldGlobal
  deriving DecidableEq, Repr

/-- One attempted call of the dynamic loader: the string argument passed to
`ctypes.CDLL` and the visibility mode used. -/
structure LoadCall where
  arg : String
  vis : Vis
  deriving DecidableEq, Repr

/-- Python `str.upper()`, modelled character-wise (ASCII case mapping; library
names and environment values in this code are ASCII). -/
def pyUpper (s : String) : String := ⟨s.data.map Char.toUpper⟩

/-- Python `str.lower()`, modelled character-wise (ASCII case mapping). -/
def pyLower (s : String) : String := ⟨s.data.map Char.toLower⟩

/-- The per-library environment override from `LibraryLoader.load`:

`os.getenv(f"PREFER_{library_name.upper()}_SYSTEM_LIBRARY", "false").lower()
 not in ("false", 0)`.

Note that the Python tuple contains the *int* `0`, and the lowercased
environment value is a *str*, which never equals an int; so membership in the
tuple is equivalent to equality with `"false"` alone. -/
def envTruthy (env : EnvMap) (libraryName : String) : Bool :=
  let v := (env ("PREFER_" ++ pyUpper libraryName ++ "_SYSTEM_LIBRARY")).getD "false"
  ¬ (pyLower v = "false")

/-- The body of the `for` loop of `LibraryLoader.load` for one requested
library name.  Returns the call outcome together with the list of dynamic
load calls attempted (including failed attempts). -/
def loadOne (dyn : DynOracle) (vis : Vis) (env : EnvMap) (preferSystem : Bool)
    (reg : Registry) (libraryName : String) :
    Except PyExc Unit × List LoadCall :=
  match lookupReg reg libraryName with
  | none =>
      (.error (.valueError ("Library " ++ libraryName ++ " not found in the package.")),
       [])
  | some entry =>
      if preferSystem || envTruthy env libraryName then
        match entryName entry with
        | .error e => (.error e, [])
        | .ok bare =>
            match dyn bare with
            | none => (.ok (), [⟨bare, vis⟩])
            | some _ =>
                -- the bare-name OSError is swallowed by `except OSError`
                match dyn (strOfEntry entry) with
                | none => (.ok (), [⟨bare, vis⟩, ⟨strOfEntry entry, vis⟩])
                | some e2 =>
                    (.error (.osError e2), [⟨bare, vis⟩, ⟨strOfEntry entry, vis⟩])
      else
        match dyn (strOfEntry entry) with
        | none => (.ok (), [⟨strOfEntry entry, vis⟩])
        | some e => (.error (.osError e), [⟨strOfEntry entry, vis⟩])

/-- The `for` loop of `LibraryLoader.load` over the requested names; an
exception aborts the loop and propagates, keeping the trace of load calls
attempted so far. -/
def loadLoop (dyn : DynOracle) (vis : Vis) (env : EnvMap) (preferSystem : Bool)
    (reg : Registry) : List String → Except PyExc Unit × List LoadCall
  | [] => (.ok (), [])
  | n :: rest =>
      match loadOne dyn vis env preferSystem reg n with
      | (.error e, t) => (.error e, t)
      | (.ok (), t) =>
          match loadLoop dyn vis env preferSystem reg rest with
          | (r, t2) => (r, t ++ t2)

/-- `LibraryLoader.load(libraries=None|list, prefer_system=...)`, identical in
`native_lib_loader/library/loader.py` and
`pkgs/shared_lib_manager/shared_lib_manager.py`.  When `libraries is None`
the registry's keys are iterated in insertion order. -/
def loaderLoad (dyn : DynOracle) (vis : Vis) (env : EnvMap) (preferSystem : Bool)
    (reg : Registry) (libraries : Option (List String)) :
    Except PyExc Unit × List LoadCall :=
  loadLoop dyn vis env preferSystem reg
    (match libraries with
     | none => reg.map Prod.fst
     | some ns => ns)

/-- Shared helper: `getattr(path, platform_name)` where `path` has exactly the
attributes `Linux`, `Darwin`, `Windows` (always present, possibly `None`).
`.error ()` is the `AttributeError` raised when `platform_name` is none of the
three attribute names (e.g. `platform.system()` returning `"Java"` or `""`). -/
def getattrPlatform (linux darwin windows : Option PyPath) (platformName : String) :
    Except Unit (Option PyPath) :=
  if platformName = "Linux" then .ok linux
  else if platformName = "Darwin" then .ok darwin
  else if platformName = "Windows" then .ok windows
  else .error ()

namespace nll

/-- `native_lib_loader.library.loader.PlatformLibrary`: a `NamedTuple` whose
three fields default to `None`.  No validation is performed on the paths. -/
structure PlatformLibrary where
  Linux : Option PyPath := none
  Darwin : Option PyPath := none
  Windows : Option PyPath := none
  deriving DecidableEq, Repr

/-- A value of the `libraries` dict of
`native_lib_loader.library.loader.LibraryLoader.__init__`: either a
`PlatformLibrary` or an ordered tuple `(Linux, Darwin, Windows)` of paths
(anything else fails the `isinstance` check with a `TypeError`). -/
inductive LibInput where
  | pl (p : PlatformLibrary)
  | tup (linux darwin windows : PyPath)
  | other
  deriving DecidableEq, Repr

/-- One iteration of the constructor loop of
`native_lib_loader.library.loader.LibraryLoader.__init__`.  The Python code is

`if isinstance(path, tuple): path = PlatformLibrary(*(Path(p) for p in path))`

and a `typing.NamedTuple` instance *is* a tuple, so a `PlatformLibrary` input
is also reconverted field by field: `Path(Path(...))` is value-preserving on
supplied fields, but `Path(None)` raises `TypeError` for every unset
(`None`) field.  Hence a `PlatformLibrary` input survives only when all three
fields are supplied; no absoluteness check is performed anywhere.  After the
conversion, a non-`PlatformLibrary` value raises the `"Invalid path"`
`TypeError`, and the platform attribute is selected with `getattr`, turning
`AttributeError` into `ValueError`.  (The Python `TypeError` messages also
interpolate the offending value and, for `Path(None)`, the full
"argument should be a str or an os.PathLike object" wording; the
interpolations are elided here, no claim depends on them.) -/
def initOne (platformName : String) (lib : String) (input : LibInput) :
    Except PyExc RegEntry :=
  let asPL : Except PyExc PlatformLibrary :=
    match input with
    | .pl p =>
        match p.Linux, p.Darwin, p.Windows with
        | some l, some d, some w => .ok ⟨some l, some d, some w⟩
        | _, _, _ =>
            .error (.typeError
              "argument should be a str or an os.PathLike object, not NoneType")
    | .tup l d w => .ok ⟨some l, some d, some w⟩
    | .other =>
        .error (.typeError ("Invalid path for library " ++ lib ++
          ". Expected a tuple or PlatformLibrary."))
  match asPL with
  | .error e => .error e
  | .ok p =>
      match getattrPlatform p.Linux p.Darwin p.Windows platformName with
      | .ok entry => .ok entry
      | .error () =>
          .error (.valueError ("No library " ++ lib ++
            " found for the current platform " ++ platformName ++
            ". This is a bug in the wheel, please report to the maintainer."))

/-- `native_lib_loader.library.loader.LibraryLoader.__init__`: builds the
registry `self._libraries` in insertion order, aborting on the first error. -/
def init (platformName : String) :
    List (String × LibInput) → Except PyExc Registry
  | [] => .ok []
  | (lib, input) :: rest =>
      match initOne platformName lib input with
      | .error e => .error e
      | .ok entry =>
          match init platformName rest with
          | .error e => .error e
          | .ok reg => .ok ((lib, entry) :: reg)

end nll

namespace slm

/-- `shared_lib_manager.PlatformLibrary` after a successful `__init__`:
the three per-platform paths (converted to `Path` or `None`) plus the
`default` producer.  The producer is modelled by the value it returns when
called (`none` when `default=None` was passed). -/
structure PlatformLibrary where
  Linux : Option PyPath := none
  Darwin : Option PyPath := none
  Windows : Option PyPath := none
  dflt : Option PyPath := none
  deriving DecidableEq, Repr

/-- `shared_lib_manager.PlatformLibrary.__init__`: after the type check, each
supplied path is converted with `Path(...)` and then
`all(p.is_absolute() for p in (...) if p is not None)` is required, else
`ValueError("All paths must be absolute.")`.  Inputs are modelled as
already-typed optional paths (the `isinstance` type check is not modelled:
no claim depends on passing a non-path, non-string value here), and the
truthiness test `Path(x) if x else None` is modelled as the `some`/`none`
distinction. -/
def PlatformLibrary.make (Darwin Linux Windows : Option PyPath)
    (dflt : Option PyPath) : Except PyExc PlatformLibrary :=
  if (Darwin.elim true fun p => p.absolute) &&
     (Linux.elim true fun p => p.absolute) &&
     (Windows.elim true fun p => p.absolute) then
    .ok ⟨Linux, Darwin, Windows, dflt⟩
  else
    .error (.valueError "All paths must be absolute.")

/-- A value of the `libraries` dict passed to
`shared_lib_manager.LibraryLoader.__init__`.  Unlike the `native_lib_loader`
variant, this constructor has no tuple-conversion branch: anything that is
not a `PlatformLibrary` instance (tuples included) fails the `isinstance`
check. -/
inductive LibInput where
  | pl (p : PlatformLibrary)
  | tup (linux darwin windows : PyPath)
  | other
  deriving DecidableEq, Repr

/-- One iteration of the constructor loop of
`shared_lib_manager.LibraryLoader.__init__`.  Returns the registry entry and
the number of times the `default` producer was invoked.  `getattr` raises
`AttributeError` only when `platform_name` is not one of the three attribute
names; on `AttributeError`, `path.default` is consulted. -/
def initOne (platformName : String) (lib : String) (input : LibInput) :
    Except PyExc (RegEntry × Nat) :=
  match input with
  | .pl p =>
      match getattrPlatform p.Linux p.Darwin p.Windows platformName with
      | .ok entry => .ok (entry, 0)
      | .error () =>
          match p.dflt with
          | some d => .ok (some d, 1)
          | none =>
              .error (.valueError ("No library " ++ lib ++
                " found for the current platform " ++ platformName ++
                ". This is a bug in the wheel, please report to the maintainer."))
  | _ =>
      .error (.typeError ("Invalid path for library " ++ lib ++
        ". Expected a tuple or PlatformLibrary."))

/-- `shared_lib_manager.LibraryLoader.__init__`: builds the registry in
insertion order and counts `default`-producer invocations, aborting on the
first error. -/
def init (platformName : String) :
    List (String × LibInput) → Except PyExc (Registry × Nat)
  | [] => .ok ([], 0)
  | (lib, input) :: rest =>
      match initOne platformName lib input with
      | .error e => .error e
      | .ok (entry, c) =>
          match init platformName rest with
          | .error e => .error e
          | .ok (reg, c2) => .ok ((lib, entry) :: reg, c + c2)

end slm

/-- Load mode of `TestingLibraryLoader`
(`native_lib_loader/library/_testing/monkeypatch.py`). -/
inductive LoadMode where
  | LOCAL
  | GLOBAL
  | ENV
  deriving DecidableEq, Repr

/-- The environment variable chosen in ENV mode:
`"LD_LIBRARY_PATH" if platform.system() == "Linux" else "DYLD_LIBRARY_PATH"
 if platform.system() == "Darwin" else "PATH"`. -/
def envVarFor (platformName : String) : String :=
  if platformName = "Linux" then "LD_LIBRARY_PATH"
  else if platformName = "Darwin" then "DYLD_LIBRARY_PATH"
  else "PATH"

/-- The separator chosen in ENV mode:
`";" if platform.system() == "Windows" else ":"`. -/
def sepFor (platformName : String) : String :=
  if platformName = "Windows" then ";" else ":"

/-- `str(path.parent)` for each registry value, in registry order, as computed
by the generator inside `TestingLibraryLoader.load`'s ENV branch.  Attribute
access `.parent` on a `None` entry raises `AttributeError`. -/
def entryParents : List RegEntry → Except PyExc (List String)
  | [] => .ok []
  | none :: _ => .error .attributeError
  | some p :: rest =>
      match entryParents rest with
      | .error e => .error e
      | .ok l => .ok (p.parent.render :: l)

/-- Result of one `TestingLibraryLoader.load` call: the call outcome, the
environment after the call, the value of the instance's `_load` attribute
after the call, and the trace of dynamic load calls made. -/
structure TestingLoadResult where
  result : Except PyExc Unit
  env : EnvMap
  loadAttr : Vis
  trace : List LoadCall

/-- `TestingLibraryLoader.load` (monkeypatch.py).  `loadAttr` is the value of
`self._load` when the call starts (normally `Vis.rtldLocal`, the inherited
`LibraryLoader._load`).

* In ENV mode the method only rewrites one environment variable (the
  walrus `if base := os.getenv(env_var, "")` appends a separator to a
  non-empty existing value) and performs no dynamic load.
* Otherwise it sets `self._load = self._load_global` when the mode is GLOBAL,
  delegates to `LibraryLoader.load`, and in a `finally` block resets
  `self._load = library.LibraryLoader._load` (RTLD_LOCAL) whether the
  delegated call returns or raises. -/
def testingLoad (platformName : String) (mode : LoadMode) (loadAttr : Vis)
    (dyn : DynOracle) (env : EnvMap) (reg : Registry)
    (libraries : Option (List String)) (preferSystem : Bool) :
    TestingLoadResult :=
  match mode with
  | .ENV =>
      let envVar := envVarFor platformName
      let sep := sepFor platformName
      let base :=
        match env envVar with
        | some s => if s = "" then "" else s ++ sep
        | none => ""
      match entryParents (reg.map Prod.snd) with
      | .error e => ⟨.error e, env, loadAttr, []⟩
      | .ok parents =>
          ⟨.ok (),
           fun v => if v = envVar then some (base ++ String.intercalate sep parents)
                    else env v,
           loadAttr, []⟩
  | _ =>
      let installed := if mode = .GLOBAL then Vis.rtldGlobal else loadAttr
      match loaderLoad dyn installed env preferSystem reg libraries with
      | (r, t) => ⟨r, env, Vis.rtldLocal, t⟩

/-- A Python module as observed by
`native_lib_loader.consumer.loader.load_library_module`: the only thing the
helper touches is `module.loader.load(prefer_system=...)`, modelled as an
optional function (absent when attribute lookup raises `AttributeError`,
either because the module has no `loader` or the loader has no `load`). -/
structure PyModule where
  loaderLoadFn : Option (Bool → Except PyExc Unit)

/-- `native_lib_loader.consumer.loader.load_library_module(module_name,
prefer_system=...)`: `importlib.import_module` is modelled by its outcome
`imp`.  Only `ModuleNotFoundError` is caught (and turns the call into a
no-op); the `else:` clause runs `module.loader.load(prefer_system=...)` and
lets every exception from it propagate. -/
def load_library_module (imp : Except PyExc PyModule) (preferSystem : Bool) :
    Except PyExc Unit :=
  match imp with
  | .error .moduleNotFoundError => .ok ()
  | .error e => .error e
  | .ok m =>
      match m.loaderLoadFn with
      | none => .error .attributeError
      | some f => f preferSystem

/-! ## Concrete fixtures used by witnesses and counterexamples -/

/-- A bundled absolute library path, `/opt/libfoo.so`. -/
def fooPath : PyPath := ⟨true, ["opt", "libfoo.so"]⟩

/-- A second bundled absolute library path, `/usr/lib/libbar.so`. -/
def barPath : PyPath := ⟨true, ["usr", "lib", "libbar.so"]⟩

/-- A relative library path, `pkg/libfoo.so`. -/
def relFooPath : PyPath := ⟨false, ["pkg", "libfoo.so"]⟩

/-- macOS and Windows counterparts of `fooPath`. -/
def fooDylibPath : PyPath := ⟨true, ["opt", "libfoo.dylib"]⟩

/-- Windows counterpart of `fooPath`, `/opt/foo.dll`. -/
def fooDllPath : PyPath := ⟨true, ["opt", "foo.dll"]⟩

/-- An environment with no variables set. -/
def emptyEnv : EnvMap := fun _ => none

/-- A dynamic loader on which every load succeeds. -/
def okDyn : DynOracle := fun _ => none

/-! ## Claims -/

/-- Claim C1.  The claim states that the system-first (bare-name) attempt is
made iff `prefer_system` is true or `PREFER_<NAME>_SYSTEM_LIBRARY` is set to a
value not case-insensitively equal to `"false"` or `"0"`; in particular a
value of `"0"` should suppress the system-first attempt.  The code diverges:
the membership test `.lower() not in ("false", 0)` compares the lowercased
string with the *int* `0`, which never matches, so the value `"0"` is treated
as truthy.  This theorem evaluates the embedded `load` at the failing input:
with `PREFER_FOO_SYSTEM_LIBRARY="0"` and `prefer_system=False` the bare-name
(system) load is still attempted first, exactly as in the (working)
`"true"` case; the claim instead requires the single direct bundled-path
call that an unset variable produces. -/
theorem envOverrideZero_systemFirstAttempted :
    (loaderLoad okDyn .rtldLocal
      (fun v => if v = "PREFER_FOO_SYSTEM_LIBRARY" then some "0" else none)
      false [("foo", some fooPath)] (some ["foo"])
      = (.ok (), [⟨"libfoo.so", .rtldLocal⟩])) ∧
    (loaderLoad okDyn .rtldLocal
      (fun v => if v = "PREFER_FOO_SYSTEM_LIBRARY" then some "true" else none)
      false [("foo", some fooPath)] (some ["foo"])
      = (.ok (), [⟨"libfoo.so", .rtldLocal⟩])) ∧
    (loaderLoad okDyn .rtldLocal emptyEnv
      false [("foo", some fooPath)] (some ["foo"])
      = (.ok (), [⟨"/opt/libfoo.so", .rtldLocal⟩])) := by
  refine ⟨?_, ?_, ?_⟩ <;> rfl

/-- Claim C2.  The claim states that on a supported platform a descriptor
with no explicit path for the running platform resolves to the `default`
producer's value (invoked exactly once), and that with neither a path nor a
`default` construction raises a `ValueError`.  The code diverges:
`shared_lib_manager.PlatformLibrary.__init__` always assigns the `Linux`,
`Darwin` and `Windows` attributes (possibly `None`), so
`getattr(path, platform_name)` never raises `AttributeError` on a supported
platform; the registry silently stores `None`, the `default` producer is
never invoked (invocation count 0), and no error is raised.  This theorem
evaluates the embedded constructor at the failing inputs on Linux (the
descriptor with a `default` is itself constructible via
`PlatformLibrary.__init__`). -/
theorem defaultProducer_deadOnSupportedPlatform :
    (slm.PlatformLibrary.make none none none (some fooPath)
      = .ok ⟨none, none, none, some fooPath⟩) ∧
    (slm.init "Linux" [("foo", .pl ⟨none, none, none, some fooPath⟩)]
      = .ok ([("foo", none)], 0)) ∧
    (slm.init "Linux" [("bar", .pl ⟨none, none, none, none⟩)]
      = .ok ([("bar", none)], 0)) := by
  refine ⟨?_, ?_, ?_⟩ <;> rfl

/-- Claim C4.  The claim states that constructing a `LibraryLoader` from the
ordered-tuple form yields the same resolved path for the running platform as
the equivalent explicit `PlatformLibrary` descriptor.  This holds for
`native_lib_loader.library.loader.LibraryLoader` (second conjunct, shown here
at the failing input's paths; the general equality is definitional since the
constructor converts the tuple to a `PlatformLibrary`), but the
`shared_lib_manager.LibraryLoader` constructor has no tuple-conversion branch
and raises `TypeError` for every tuple — even though its docstring documents
the tuple form and the error message itself says a tuple is expected (first
conjunct evaluates the code at the failing input). -/
theorem tupleForm_rejectedBySharedLibManager :
    (slm.init "Linux" [("foo", .tup fooPath fooDylibPath fooDllPath)]
      = .error (.typeError
          "Invalid path for library foo. Expected a tuple or PlatformLibrary.")) ∧
    (nll.init "Linux" [("foo", .tup fooPath fooDylibPath fooDllPath)]
      = nll.init "Linux"
          [("foo", .pl ⟨some fooPath, some fooDylibPath, some fooDllPath⟩)]) ∧
    (nll.init "Linux" [("foo", .tup fooPath fooDylibPath fooDllPath)]
      = .ok [("foo", some fooPath)]) := by
  refine ⟨?_, ?_, ?_⟩ <;> rfl

/-- Claim C5.  If the first requested library name is not a key of the
registry, `load` raises `ValueError("Library <x> not found in the package.")`
and the trace of attempted dynamic load calls is empty: no load of any other
registered library is attempted by that call. -/
theorem load_unregisteredFirst_raisesWithoutLoading
    (dyn : DynOracle) (vis : Vis) (env : EnvMap) (preferSystem : Bool)
    (reg : Registry) (x : String) (rest : List String)
    (h : lookupReg reg x = none) :
    loaderLoad dyn vis env preferSystem reg (some (x :: rest)) =
      (.error (.valueError ("Library " ++ x ++ " not found in the package.")), []) := by
  simp [loaderLoad, loadLoop, loadOne, h]

/-- Witness for claim C5: `load(["x"])` on a registry containing only `foo`
raises the lookup error for `x` with an empty load trace. -/
theorem load_unregisteredFirst_raisesWithoutLoading_witness :
    lookupReg [("foo", some fooPath)] "x" = none ∧
    loaderLoad okDyn .rtldLocal emptyEnv false [("foo", some fooPath)]
        (some ["x"]) =
      (.error (.valueError "Library x not found in the package."), []) :=
  ⟨rfl, load_unregisteredFirst_raisesWithoutLoading okDyn .rtldLocal emptyEnv false
    [("foo", some fooPath)] "x" [] rfl⟩

/-- Claim C3.  For a registered library `n` with bundled path `p` on which
system preference is requested (`prefer_system` or the env override):
if the bare-name load raises `OSError` but the bundled-path load succeeds
(oracle `dyn1`), `load` returns successfully; if both raise `OSError`
(oracle `dyn2`), the OS-level error of the bundled-path attempt propagates
unmodified. -/
theorem load_systemFallbackChain
    (dyn1 dyn2 : DynOracle) (vis : Vis) (env : EnvMap) (preferSystem : Bool)
    (reg : Registry) (n : String) (p : PyPath) (e1 e1' e2 : String)
    (hreg : lookupReg reg n = some (some p))
    (hpref : (preferSystem || envTruthy env n) = true)
    (h1a : dyn1 p.name = some e1)
    (h1b : dyn1 (strOfEntry (some p)) = none)
    (h2a : dyn2 p.name = some e1')
    (h2b : dyn2 (strOfEntry (some p)) = some e2) :
    loaderLoad dyn1 vis env preferSystem reg (some [n]) =
      (.ok (), [⟨p.name, vis⟩, ⟨strOfEntry (some p), vis⟩]) ∧
    loaderLoad dyn2 vis env preferSystem reg (some [n]) =
      (.error (.osError e2), [⟨p.name, vis⟩, ⟨strOfEntry (some p), vis⟩]) := by
  constructor <;>
    simp [loaderLoad, loadLoop, loadOne, entryName, hreg, hpref, h1a, h1b, h2a, h2b]

/-- Witness for claim C3 at a concrete input: `foo` registered at
`/opt/libfoo.so`, `prefer_system=True`; `dyn1` fails on the bare name
`libfoo.so` and succeeds on the bundled path, `dyn2` fails on both. -/
theorem load_systemFallbackChain_witness :
    loaderLoad (fun s => if s = "libfoo.so" then some "libfoo.so: not found" else none)
        .rtldLocal emptyEnv true [("foo", some fooPath)] (some ["foo"]) =
      (.ok (), [⟨"libfoo.so", .rtldLocal⟩, ⟨"/opt/libfoo.so", .rtldLocal⟩]) ∧
    loaderLoad (fun s => if s = "libfoo.so" then some "libfoo.so: not found"
        else some "/opt/libfoo.so: cannot open")
        .rtldLocal emptyEnv true [("foo", some fooPath)] (some ["foo"]) =
      (.error (.osError "/opt/libfoo.so: cannot open"),
       [⟨"libfoo.so", .rtldLocal⟩, ⟨"/opt/libfoo.so", .rtldLocal⟩]) :=
  load_systemFallbackChain
    (fun s => if s = "libfoo.so" then some "libfoo.so: not found" else none)
    (fun s => if s = "libfoo.so" then some "libfoo.so: not found"
      else some "/opt/libfoo.so: cannot open")
    .rtldLocal emptyEnv true [("foo", some fooPath)] "foo" fooPath
    "libfoo.so: not found" "libfoo.so: not found" "/opt/libfoo.so: cannot open"
    rfl rfl rfl rfl rfl rfl

/-- Counterexample to claim C6: in the `native_lib_loader` variant a relative
(non-absolute) path does NOT cause construction to fail — neither in the
ordered-tuple form nor in a fully-populated explicit `PlatformLibrary`
descriptor (which the constructor reconverts field by field, a
value-preserving operation when every field is supplied).  No absoluteness
check runs and the registry happily stores the relative path
`pkg/libfoo.so`. -/
theorem nll_acceptsRelativePath :
    relFooPath.absolute = false ∧
    nll.init "Linux" [("foo", .tup relFooPath relFooPath relFooPath)] =
      .ok [("foo", some relFooPath)] ∧
    nll.init "Linux"
        [("foo", .pl ⟨some relFooPath, some relFooPath, some relFooPath⟩)] =
      .ok [("foo", some relFooPath)] := ⟨rfl, rfl, rfl⟩

/-- Claim C6 (amended): in the `shared_lib_manager` variant, any explicitly
supplied per-platform path that is not absolute causes
`PlatformLibrary.__init__` to fail immediately with
`ValueError("All paths must be absolute.")`, before any load is attempted. -/
theorem slm_platformLibrary_rejectsRelative
    (Darwin Linux Windows dflt : Option PyPath) (q : PyPath)
    (hq : q.absolute = false)
    (hsupplied : Darwin = some q ∨ Linux = some q ∨ Windows = some q) :
    slm.PlatformLibrary.make Darwin Linux Windows dflt =
      .error (.valueError "All paths must be absolute.") := by
  rcases hsupplied with h | h | h <;> subst h <;>
    simp [slm.PlatformLibrary.make, hq]

/-- Witness for claim C6 (amended): the relative path `pkg/libfoo.so` in the
`Linux` slot is rejected. -/
theorem slm_platformLibrary_rejectsRelative_witness :
    relFooPath.absolute = false ∧
    slm.PlatformLibrary.make none (some relFooPath) none none =
      .error (.valueError "All paths must be absolute.") :=
  ⟨rfl, slm_platformLibrary_rejectsRelative none (some relFooPath) none none
    relFooPath rfl (Or.inr (Or.inl rfl))⟩

/-- In a registry whose keys are distinct (as Python `dict` keys are), lookup
of a member's key returns that member's entry. -/
theorem lookupReg_of_mem_nodup :
    ∀ (reg : Registry), (reg.map Prod.fst).Nodup →
      ∀ {n : String} {e : RegEntry}, (n, e) ∈ reg → lookupReg reg n = some e := by
  intro reg
  induction reg with
  | nil => intro _ n e h; cases h
  | cons hd tl ih =>
      intro hnd n e hmem
      rw [List.map_cons] at hnd
      obtain ⟨hhd, htl⟩ := List.nodup_cons.1 hnd
      rcases List.mem_cons.1 hmem with h | h
      · cases h
        simp [lookupReg]
      · have hne : hd.1 ≠ n := by
          intro heq
          exact hhd (heq ▸ List.mem_map.2 ⟨(n, e), h, rfl⟩)
        simpa [lookupReg, hne] using ih htl h

/-- When every requested name is registered, its env override is falsy and
its bundled load succeeds, the loop (with `prefer_system=False`) succeeds and
attempts exactly one load per requested name, in request order. -/
theorem loadLoop_allOk (dyn : DynOracle) (vis : Vis) (env : EnvMap)
    (reg : Registry) :
    ∀ names : List String,
      (∀ n ∈ names, ∃ e, lookupReg reg n = some e ∧ envTruthy env n = false ∧
        dyn (strOfEntry e) = none) →
      loadLoop dyn vis env false reg names =
        (.ok (), names.map fun n => ⟨strOfEntry ((lookupReg reg n).getD none), vis⟩) := by
  intro names
  induction names with
  | nil => intro _; rfl
  | cons n rest ih =>
      intro h
      obtain ⟨e, he, henv, hdyn⟩ := h n (List.mem_cons_self n rest)
      have hrest := ih fun m hm => h m (List.mem_cons_of_mem n hm)
      simp [loadLoop, loadOne, he, henv, hdyn, hrest]

/-- Claim C7.  `load()` with `libraries=None` (and `prefer_system=False`, no
truthy env overrides) attempts to load every registered library, in the
insertion order of the registry, and no others: the trace is exactly one
bundled-path load call per registry entry, in registry order. -/
theorem load_none_loadsAllInOrder (dyn : DynOracle) (vis : Vis) (env : EnvMap)
    (reg : Registry)
    (hnd : (reg.map Prod.fst).Nodup)
    (henv : ∀ pr ∈ reg, envTruthy env pr.1 = false)
    (hdyn : ∀ pr ∈ reg, dyn (strOfEntry pr.2) = none) :
    loaderLoad dyn vis env false reg none =
      (.ok (), reg.map fun pr => ⟨strOfEntry pr.2, vis⟩) := by
  have hmain := loadLoop_allOk dyn vis env reg (reg.map Prod.fst) ?_
  · show loadLoop dyn vis env false reg (reg.map Prod.fst) = _
    rw [hmain, List.map_map]
    refine congrArg _ (List.map_congr_left ?_)
    intro pr hpr
    have hlk : lookupReg reg pr.1 = some pr.2 :=
      lookupReg_of_mem_nodup reg hnd (by simpa using hpr)
    simp [hlk]
  · intro n hn
    obtain ⟨pr, hpr, hfst⟩ := List.mem_map.1 hn
    subst hfst
    exact ⟨pr.2, lookupReg_of_mem_nodup reg hnd (by simpa using hpr),
      henv pr hpr, hdyn pr hpr⟩

/-- Witness for claim C7: a two-library registry is loaded in insertion order
(`foo` then `bar`) by `load()` with no arguments. -/
theorem load_none_loadsAllInOrder_witness :
    loaderLoad okDyn .rtldLocal emptyEnv false
        [("foo", some fooPath), ("bar", some barPath)] none =
      (.ok (), [⟨"/opt/libfoo.so", .rtldLocal⟩, ⟨"/usr/lib/libbar.so", .rtldLocal⟩]) := by
  have h := load_none_loadsAllInOrder okDyn .rtldLocal emptyEnv
    [("foo", some fooPath), ("bar", some barPath)]
    (by decide) (by decide) (by decide)
  simpa using h

/-- Claim C8.  In ENV mode `TestingLibraryLoader.load` performs no dynamic
load call (empty trace) and leaves `self._load` untouched; its only effect is
on exactly one environment variable — chosen as `LD_LIBRARY_PATH` on Linux,
`DYLD_LIBRARY_PATH` on Darwin and `PATH` on Windows — whose new value is the
parent directories of the registered library paths (in registry order,
computed by the generator `entryParents`) joined with the platform's path
separator and appended to any existing non-empty value; every other variable
is unchanged. -/
theorem testingLoad_envMode_onlyMutatesSearchPathVar
    (platformName : String) (loadAttr : Vis) (dyn : DynOracle) (env : EnvMap)
    (reg : Registry) (libraries : Option (List String)) (preferSystem : Bool)
    (parents : List String)
    (hps : entryParents (reg.map Prod.snd) = .ok parents) :
    (envVarFor "Linux" = "LD_LIBRARY_PATH" ∧
     envVarFor "Darwin" = "DYLD_LIBRARY_PATH" ∧
     envVarFor "Windows" = "PATH") ∧
    (testingLoad platformName .ENV loadAttr dyn env reg libraries
        preferSystem).trace = [] ∧
    (testingLoad platformName .ENV loadAttr dyn env reg libraries
        preferSystem).result = .ok () ∧
    (testingLoad platformName .ENV loadAttr dyn env reg libraries
        preferSystem).loadAttr = loadAttr ∧
    (testingLoad platformName .ENV loadAttr dyn env reg libraries
        preferSystem).env (envVarFor platformName) =
      some ((match env (envVarFor platformName) with
             | some s => if s = "" then "" else s ++ sepFor platformName
             | none => "") ++
            String.intercalate (sepFor platformName) parents) ∧
    (∀ v, v ≠ envVarFor platformName →
      (testingLoad platformName .ENV loadAttr dyn env reg libraries
          preferSystem).env v = env v) := by
  refine ⟨⟨rfl, rfl, rfl⟩, ?_, ?_, ?_, ?_, ?_⟩ <;>
    simp only [testingLoad, hps] <;>
    first
      | (intro v hv; simp [hv])
      | simp

/-- Witness for claim C8: on Linux, with `LD_LIBRARY_PATH=/existing` and
libraries at `/opt/libfoo.so` and `/usr/lib/libbar.so`, the new value is
`/existing:/opt:/usr/lib`, the `PATH` variable is untouched and no load call
is made. -/
theorem testingLoad_envMode_onlyMutatesSearchPathVar_witness :
    (testingLoad "Linux" .ENV .rtldLocal okDyn
        (fun v => if v = "LD_LIBRARY_PATH" then some "/existing" else none)
        [("foo", some fooPath), ("bar", some barPath)] none false).trace = [] ∧
    (testingLoad "Linux" .ENV .rtldLocal okDyn
        (fun v => if v = "LD_LIBRARY_PATH" then some "/existing" else none)
        [("foo", some fooPath), ("bar", some barPath)] none false).env
        "LD_LIBRARY_PATH" = some "/existing:/opt:/usr/lib" ∧
    (testingLoad "Linux" .ENV .rtldLocal okDyn
        (fun v => if v = "LD_LIBRARY_PATH" then some "/existing" else none)
        [("foo", some fooPath), ("bar", some barPath)] none false).env
        "PATH" = none := by
  have h := testingLoad_envMode_onlyMutatesSearchPathVar "Linux" .rtldLocal okDyn
    (fun v => if v = "LD_LIBRARY_PATH" then some "/existing" else none)
    [("foo", some fooPath), ("bar", some barPath)] none false
    ["/opt", "/usr/lib"] rfl
  refine ⟨h.2.1, ?_, ?_⟩
  · have hv := h.2.2.2.2.1
    simpa using hv
  · have hv := h.2.2.2.2.2 "PATH" (by decide)
    simpa using hv

/-- Claim C9.  `load_library_module` is a silent no-op exactly when
the import raises `ModuleNotFoundError`; any other import exception, the
`AttributeError` from a module without a usable `loader.load`, and any
exception raised by the module loader's `load` call all propagate to the
caller. -/
theorem load_library_module_errorContract
    (imp : Except PyExc PyModule) (preferSystem : Bool) :
    (imp = .error .moduleNotFoundError →
      load_library_module imp preferSystem = .ok ()) ∧
    (∀ e : PyExc, imp = .error e → e ≠ .moduleNotFoundError →
      load_library_module imp preferSystem = .error e) ∧
    (∀ m : PyModule, imp = .ok m → m.loaderLoadFn = none →
      load_library_module imp preferSystem = .error .attributeError) ∧
    (∀ (m : PyModule) (f : Bool → Except PyExc Unit),
      imp = .ok m → m.loaderLoadFn = some f →
      load_library_module imp preferSystem = f preferSystem) := by
  refine ⟨?_, ?_, ?_, ?_⟩
  · intro h; subst h; rfl
  · intro e h hne; subst h
    cases e <;> simp [load_library_module] at hne ⊢
  · intro m h hl; subst h
    simp [load_library_module, hl]
  · intro m f h hl; subst h
    simp [load_library_module, hl]

/-- Witness for claim C9: the four cases at concrete inputs — a missing
module is a no-op, a non-`ModuleNotFoundError` import failure propagates, a
module without a `loader` attribute propagates `AttributeError`, and the
loader's own `OSError` propagates. -/
theorem load_library_module_errorContract_witness :
    load_library_module (.error .moduleNotFoundError) false = .ok () ∧
    load_library_module (.error .importError) false = .error .importError ∧
    load_library_module (.ok ⟨none⟩) false = .error .attributeError ∧
    load_library_module (.ok ⟨some fun _ => .error (.osError "boom")⟩) true =
      .error (.osError "boom") :=
  ⟨(load_library_module_errorContract (.error .moduleNotFoundError) false).1 rfl,
   (load_library_module_errorContract (.error .importError) false).2.1
     .importError rfl (by decide),
   (load_library_module_errorContract (.ok ⟨none⟩) false).2.2.1 ⟨none⟩ rfl rfl,
   (load_library_module_errorContract
     (.ok ⟨some fun _ => .error (.osError "boom")⟩) true).2.2.2
     ⟨some fun _ => .error (.osError "boom")⟩ (fun _ => .error (.osError "boom"))
     rfl rfl⟩

/-- Claim C10.  After `TestingLibraryLoader.load` in LOCAL or GLOBAL mode —
whether the delegated base `load` returns or raises — the instance's `_load`
attribute is the base `LibraryLoader._load` (RTLD_LOCAL) function: the
`finally` block always restores it, so a GLOBAL-mode load never leaves the
global-visibility loader installed. -/
theorem testingLoad_restoresLocalLoad
    (platformName : String) (mode : LoadMode) (loadAttr : Vis)
    (dyn : DynOracle) (env : EnvMap) (reg : Registry)
    (libraries : Option (List String)) (preferSystem : Bool)
    (h : mode = .LOCAL ∨ mode = .GLOBAL) :
    (testingLoad platformName mode loadAttr dyn env reg libraries
        preferSystem).loadAttr = .rtldLocal := by
  rcases h with h | h <;> subst h <;> simp [testingLoad]

/-- Witness for claim C10: a GLOBAL-mode load whose dynamic load raises
still ends with `_load` restored to RTLD_LOCAL (and a LOCAL-mode success
does too). -/
theorem testingLoad_restoresLocalLoad_witness :
    (testingLoad "Linux" .GLOBAL .rtldLocal (fun _ => some "cannot open")
        emptyEnv [("foo", some fooPath)] none false).loadAttr = .rtldLocal ∧
    (testingLoad "Linux" .LOCAL .rtldLocal okDyn emptyEnv
        [("foo", some fooPath)] none false).loadAttr = .rtldLocal :=
  ⟨testingLoad_restoresLocalLoad "Linux" .GLOBAL .rtldLocal
      (fun _ => some "cannot open") emptyEnv [("foo", some fooPath)] none false
      (Or.inr rfl),
   testingLoad_restoresLocalLoad "Linux" .LOCAL .rtldLocal okDyn emptyEnv
      [("foo", some fooPath)] none false (Or.inl rfl)⟩
